import Mathlib

/-!
Verification of the lifecycle controller of egut/minecraft-server-setup.

Two programs are embedded:
  * the activity monitor (src/aws/scripts/monitor_activity.py): a polling
    loop that tracks the last-active timestamp, pushes a metric, and stops
    plus tags the instance after a configured number of inactive minutes;
  * the retention sweeper (src/aws/lambda/stopped_instance_check.py): a
    lambda handler that lists stopped instances carrying a StopTime tag and
    terminates those stopped for at least a configured number of days.

Times are modelled as integer seconds since the epoch.  Python datetime
values are a pair of seconds and an awareness flag, because subtracting an
offset-naive datetime from an offset-aware one raises TypeError in Python.
Outcomes of external calls (RCON sample, CloudWatch put, EC2 create_tags /
stop_instances / terminate_instances / describe_instances) are inputs of
the embedding: each tick or each instance record carries the outcome the
environment would produce.
-/

namespace MinecraftSetup

/-! ## Monitor: src/aws/scripts/monitor_activity.py -/

/-- Environment outcomes seen by one iteration of the monitor loop
(main, lines 214-246).  `players = none` models get_player_count raising
RCONError; `metricOk = false` models put_cloudwatch_metric raising
ClientError; `now` is the value of datetime.now read at line 219;
`tagOk` / `stopOk` are the outcomes of the create_tags and stop_instances
calls inside stop_instance (lines 170-184). -/
structure TickIn where
  players : Option Nat
  metricOk : Bool
  now : Int
  tagOk : Bool
  stopOk : Bool
deriving DecidableEq

/-- Externally visible provider writes of the monitor: the StopTime tag
write (create_tags, line 172) and the stop call (stop_instances, line 180). -/
inductive MEvent where
  | tagWrite (t : Int)
  | stopIssue
deriving DecidableEq

/-- Result of one loop iteration: the new last_active_time, the provider
writes performed, whether the inactivity branch called stop_instance
(`triggered`), and whether the `break` at line 237 was reached (`brk`). -/
structure TickOut where
  lastActive : Int
  events : List MEvent
  triggered : Bool
  brk : Bool
deriving DecidableEq

/-- One iteration of the `while True` body of main (lines 214-246).
An RCONError or a ClientError from the metric push is caught by the
`except` arms at lines 239-244, skipping the rest of the iteration.
The comparison `inactive_minutes >= inactivity_timeout` with
inactive_minutes = (now - last_active).total_seconds() / 60 is scaled by
60 to the exact integer comparison 60 * timeout <= now - last_active.
Inside stop_instance, a create_tags failure raises before the tag is
written; a stop_instances failure raises after it; either ClientError is
caught by the loop (line 241), so `break` is reached only when both
provider calls succeed. -/
def monitorTick (inactivity_timeout last_active_time : Int) (i : TickIn) : TickOut :=
  match i.players with
  | none => ⟨last_active_time, [], false, false⟩
  | some players =>
    if i.metricOk = false then ⟨last_active_time, [], false, false⟩
    else if 0 < players then ⟨i.now, [], false, false⟩
    else if 60 * inactivity_timeout ≤ i.now - last_active_time then
      if i.tagOk = false then ⟨last_active_time, [], true, false⟩
      else if i.stopOk = false then ⟨last_active_time, [MEvent.tagWrite i.now], true, false⟩
      else ⟨last_active_time, [MEvent.tagWrite i.now, MEvent.stopIssue], true, true⟩
    else ⟨last_active_time, [], false, false⟩

/-- Outcome of running the monitor loop over a finite prefix of tick
environments: the provider writes in order, whether the loop exited via
`break` (suspension happened), and the final last_active_time. -/
structure RunOut where
  events : List MEvent
  suspended : Bool
  lastActive : Int
deriving DecidableEq

/-- The `while True` loop of main over a finite list of tick environments.
The loop body never exits except through the `break` after stop_instance
succeeds; an exhausted input list models a still-running monitor. -/
def monitorRun (inactivity_timeout last_active_time : Int) : List TickIn → RunOut
  | [] => ⟨[], false, last_active_time⟩
  | i :: rest =>
    let t := monitorTick inactivity_timeout last_active_time i
    if t.brk then ⟨t.events, true, t.lastActive⟩
    else
      let r := monitorRun inactivity_timeout t.lastActive rest
      ⟨t.events ++ r.events, r.suspended, r.lastActive⟩

/-- main (lines 186-252): a metadata or configuration failure at startup is
caught at line 248 and main returns 1 before the loop starts; otherwise
last_active_time is initialised to the startup clock (line 208) and the
loop runs; main returns 0 only after the loop breaks.  `none` as exit code
models a monitor still inside the loop. -/
def mainRun (metadataOk configOk : Bool) (inactivity_timeout start_time : Int)
    (ticks : List TickIn) : Option Int × List MEvent :=
  if metadataOk = false ∨ configOk = false then (some 1, [])
  else
    let r := monitorRun inactivity_timeout start_time ticks
    (if r.suspended then some 0 else none, r.events)

/-- The spec example trace for C1: samples [2,0,0,0,0,0,0,0,0,0,0] at
1-minute spacing starting at time 0, all provider calls succeeding. -/
def c1Trace : List TickIn :=
  (List.range 11).map (fun k =>
    ⟨some (if k = 0 then 2 else 0), true, 60 * (k : Int), true, true⟩)

/-- C1: on a tick whose sample and metric push succeed, stop_instance is
called iff the sample is zero and the inactivity window now - last_active
is at least 60 * timeout seconds (i.e. window in minutes ≥ threshold,
boundary inclusive); and on the spec example with threshold 10 minutes the
suspension happens exactly at the 11th sample (time 600 s), not within the
first ten. -/
theorem c1_trigger_iff_threshold :
    (∀ (timeout la : Int) (i : TickIn) (p : Nat),
        i.players = some p → i.metricOk = true →
        ((monitorTick timeout la i).triggered = true ↔
          (p = 0 ∧ 60 * timeout ≤ i.now - la)))
    ∧ (monitorRun 10 0 (c1Trace.take 10)).suspended = false
    ∧ (monitorRun 10 0 c1Trace).suspended = true
    ∧ (monitorRun 10 0 c1Trace).events = [MEvent.tagWrite 600, MEvent.stopIssue] := by
  refine ⟨?_, by decide, by decide, by decide⟩
  intro timeout la i p hp hm
  unfold monitorTick
  rw [hp, hm]
  simp only [Bool.true_eq_false, if_false]
  by_cases hpos : 0 < p
  · simp [hpos, Nat.pos_iff_ne_zero.mp hpos]
  · have hz : p = 0 := Nat.eq_zero_of_not_pos hpos
    subst hz
    by_cases hc : 60 * timeout ≤ i.now - la
    · by_cases ht : i.tagOk = false
      · simp [hc, ht]
      · by_cases hs : i.stopOk = false
        · simp [hc, ht, hs]
        · simp [hc, ht, hs]
    · simp [hc]

/-- Witness for C1 at a concrete tick: last active at 0, tick at 600 s,
zero players, threshold 10 minutes: the trigger fires. -/
theorem c1_trigger_iff_threshold_witness :
    (monitorTick 10 0 ⟨some 0, true, 600, true, true⟩).triggered = true :=
  (c1_trigger_iff_threshold.1 10 0 ⟨some 0, true, 600, true, true⟩ 0 rfl rfl).mpr
    (by constructor <;> decide)

/-- C9: a tick whose activity sample fails (RCONError, caught at line 239)
changes nothing: last_active_time is unchanged, no provider write happens,
no suspension is triggered, and the loop continues — the remaining run is
exactly the run on the remaining ticks. -/
theorem c9_sampler_failure_skips_tick :
    ∀ (timeout la : Int) (i : TickIn), i.players = none →
      monitorTick timeout la i = ⟨la, [], false, false⟩
      ∧ ∀ rest, monitorRun timeout la (i :: rest) = monitorRun timeout la rest := by
  intro timeout la i h
  have ht : monitorTick timeout la i = ⟨la, [], false, false⟩ := by
    unfold monitorTick; rw [h]
  refine ⟨ht, fun rest => ?_⟩
  simp [monitorRun, ht]

/-- Witness for C9: a concrete failed-sample tick leaves state untouched. -/
theorem c9_sampler_failure_skips_tick_witness :
    monitorTick 10 0 ⟨none, true, 600, true, true⟩ = ⟨0, [], false, false⟩
      ∧ ∀ rest, monitorRun 10 0 (⟨none, true, 600, true, true⟩ :: rest)
          = monitorRun 10 0 rest :=
  c9_sampler_failure_skips_tick 10 0 ⟨none, true, 600, true, true⟩ rfl

/-- Counterexample to C4: at a tick whose sample succeeds with 3 players
but whose metric push fails, the code does NOT set last_active_time to the
tick time 60 — the ClientError raised by put_cloudwatch_metric (line 217)
jumps to the handler at line 241 before line 222 runs, so last_active_time
stays 0. -/
theorem c4_metric_failure_counterexample :
    (monitorTick 10 0 ⟨some 3, false, 60, true, true⟩).lastActive = 0
      ∧ (0 : Int) ≠ 60 := by
  exact ⟨by decide, by decide⟩

/-- C4 (amended): on ticks whose sample AND metric push both succeed, a
positive count sets last_active_time to the tick time and a zero count
leaves it unchanged; a metric-push failure instead aborts the remainder of
the tick, leaving last_active_time unchanged (and triggering nothing). -/
theorem c4_last_active_update :
    ∀ (timeout la : Int) (i : TickIn) (p : Nat), i.players = some p →
      (i.metricOk = true →
        (0 < p → (monitorTick timeout la i).lastActive = i.now)
        ∧ (p = 0 → (monitorTick timeout la i).lastActive = la))
      ∧ (i.metricOk = false → monitorTick timeout la i = ⟨la, [], false, false⟩) := by
  intro timeout la i p hp
  constructor
  · intro hm
    constructor
    · intro hpos
      unfold monitorTick; rw [hp, hm]
      simp [hpos]
    · intro hz
      subst hz
      unfold monitorTick; rw [hp, hm]
      by_cases hc : 60 * timeout ≤ i.now - la
      · by_cases ht : i.tagOk = false
        · simp [hc, ht]
        · by_cases hs : i.stopOk = false
          · simp [hc, ht, hs]
          · simp [hc, ht, hs]
      · simp [hc]
  · intro hm
    unfold monitorTick; rw [hp, hm]
    simp

/-- Witness for C4 (amended) at concrete ticks. -/
theorem c4_last_active_update_witness :
    (monitorTick 10 0 ⟨some 3, true, 60, true, true⟩).lastActive = 60
      ∧ monitorTick 10 0 ⟨some 3, false, 60, true, true⟩ = ⟨0, [], false, false⟩ :=
  ⟨((c4_last_active_update 10 0 ⟨some 3, true, 60, true, true⟩ 3 rfl).1 rfl).1 (by decide),
   (c4_last_active_update 10 0 ⟨some 3, false, 60, true, true⟩ 3 rfl).2 rfl⟩

/-- Number of StopTime tag writes in an event list. -/
def countTagWrites (evs : List MEvent) : Nat :=
  (evs.filter (fun e => match e with | MEvent.tagWrite _ => true | _ => false)).length

/-- A run in which the threshold is reached at time 600 with the stop call
failing (tag already written), and reached again at 660 with the stop call
succeeding. -/
def c3Trace : List TickIn :=
  [⟨some 0, true, 600, true, false⟩, ⟨some 0, true, 660, true, true⟩]

/-- Counterexample to C3: when the stop_instances call fails after the tag
is written, the ClientError is caught at line 241 and the loop continues;
the next tick over the threshold calls stop_instance again and rewrites the
StopTime tag — two tag writes in one monitor run. -/
theorem c3_tag_rewritten_counterexample :
    (monitorRun 10 0 c3Trace).events
        = [MEvent.tagWrite 600, MEvent.tagWrite 660, MEvent.stopIssue]
      ∧ countTagWrites (monitorRun 10 0 c3Trace).events = 2 := by
  exact ⟨by decide, by decide⟩

/-- A tick that does not break while its stop call would succeed performs
no tag write (the only branch that writes without breaking is the one with
a failing stop call). -/
theorem monitorTick_no_write_of_not_brk (timeout la : Int) (i : TickIn)
    (hs : i.stopOk = true) (hb : (monitorTick timeout la i).brk = false) :
    (monitorTick timeout la i).events = [] := by
  rcases h : i.players with _ | p
  · simp [monitorTick, h]
  · by_cases hm : i.metricOk = false
    · simp [monitorTick, h, hm]
    · by_cases hpos : 0 < p
      · simp [monitorTick, h, hm, hpos]
      · by_cases hc : 60 * timeout ≤ i.now - la
        · by_cases ht : i.tagOk = false
          · simp [monitorTick, h, hm, hpos, hc, ht]
          · exfalso
            simp [monitorTick, h, hm, hpos, hc, ht, hs] at hb
        · simp [monitorTick, h, hm, hpos, hc]

/-- C3 (amended): in a run where the stop call never fails, the StopTime
tag is written at most once — the loop breaks immediately after the single
write; only a stop failure after tagging lets the loop continue and write
the tag again later. -/
theorem c3_tag_once_if_stop_succeeds :
    ∀ (timeout : Int) (ticks : List TickIn) (la : Int),
      (∀ i ∈ ticks, i.stopOk = true) →
      countTagWrites (monitorRun timeout la ticks).events ≤ 1 := by
  intro timeout ticks
  induction ticks with
  | nil => intro la _; simp [monitorRun, countTagWrites]
  | cons i rest ih =>
    intro la hall
    have hi : i.stopOk = true := hall i (List.mem_cons_self i rest)
    have hrest : ∀ j ∈ rest, j.stopOk = true :=
      fun j hj => hall j (List.mem_cons_of_mem i hj)
    unfold monitorRun
    by_cases hb : (monitorTick timeout la i).brk = true
    · simp only [hb, if_true]
      have : countTagWrites (monitorTick timeout la i).events ≤ 1 := by
        rcases h : i.players with _ | p
        · simp [monitorTick, h, countTagWrites]
        · by_cases hm : i.metricOk = false
          · simp [monitorTick, h, hm, countTagWrites]
          · by_cases hpos : 0 < p
            · simp [monitorTick, h, hm, hpos, countTagWrites]
            · by_cases hc : 60 * timeout ≤ i.now - la
              · by_cases ht : i.tagOk = false
                · simp [monitorTick, h, hm, hpos, hc, ht, countTagWrites]
                · by_cases hsf : i.stopOk = false
                  · simp [monitorTick, h, hm, hpos, hc, ht, hsf, countTagWrites]
                  · simp [monitorTick, h, hm, hpos, hc, ht, hsf, countTagWrites]
              · simp [monitorTick, h, hm, hpos, hc, countTagWrites]
      exact this
    · have hb' : (monitorTick timeout la i).brk = false := by
        revert hb; cases (monitorTick timeout la i).brk <;> simp
      have hnil : (monitorTick timeout la i).events = [] :=
        monitorTick_no_write_of_not_brk timeout la i hi hb'
      simp only [hb', if_false]
      have := ih (monitorTick timeout la i).lastActive hrest
      simpa [countTagWrites, hnil] using this

/-- Witness for C3 (amended): a run over two all-success ticks writes the
tag exactly once, hence at most once. -/
theorem c3_tag_once_if_stop_succeeds_witness :
    countTagWrites (monitorRun 10 0
      [⟨some 0, true, 600, true, true⟩, ⟨some 0, true, 660, true, true⟩]).events ≤ 1 :=
  c3_tag_once_if_stop_succeeds 10
    [⟨some 0, true, 600, true, true⟩, ⟨some 0, true, 660, true, true⟩] 0
    (by decide)

/-- C8: when the threshold is reached on a fully successful tick, the tick
performs exactly the write sequence [tag write with the tick instant,
stop call] and reaches the `break`; a startup metadata or configuration
failure makes main return 1 before the loop; and any run whose loop breaks
makes main return exit code 0. -/
theorem c8_suspension_order_and_exit :
    (∀ (timeout la : Int) (i : TickIn),
        i.players = some 0 → i.metricOk = true → i.tagOk = true → i.stopOk = true →
        60 * timeout ≤ i.now - la →
        monitorTick timeout la i
          = ⟨la, [MEvent.tagWrite i.now, MEvent.stopIssue], true, true⟩)
    ∧ (∀ (metadataOk configOk : Bool) (timeout st : Int) (ticks : List TickIn),
        metadataOk = false ∨ configOk = false →
        (mainRun metadataOk configOk timeout st ticks).1 = some 1)
    ∧ (∀ (timeout st : Int) (ticks : List TickIn),
        (monitorRun timeout st ticks).suspended = true →
        (mainRun true true timeout st ticks).1 = some 0) := by
  refine ⟨?_, ?_, ?_⟩
  · intro timeout la i hp hm ht hs hc
    simp [monitorTick, hp, hm, ht, hs, hc]
  · intro metadataOk configOk timeout st ticks h
    simp [mainRun, h]
  · intro timeout st ticks h
    simp [mainRun, h]

/-- Witness for C8 at a concrete suspension tick, a failed startup and a
suspending run. -/
theorem c8_suspension_order_and_exit_witness :
    monitorTick 10 0 ⟨some 0, true, 600, true, true⟩
        = ⟨0, [MEvent.tagWrite 600, MEvent.stopIssue], true, true⟩
      ∧ (mainRun false true 10 0 []).1 = some 1
      ∧ (mainRun true true 10 0 [⟨some 0, true, 600, true, true⟩]).1 = some 0 :=
  ⟨c8_suspension_order_and_exit.1 10 0 ⟨some 0, true, 600, true, true⟩
      rfl rfl rfl rfl (by decide),
   c8_suspension_order_and_exit.2.1 false true 10 0 [] (Or.inl rfl),
   c8_suspension_order_and_exit.2.2 10 0 [⟨some 0, true, 600, true, true⟩] (by decide)⟩

/-- C10: main initialises last_active_time to its own startup clock
(line 208), so over any run whose successful samples are all zero (with
metric and provider calls succeeding), the loop breaks — and main exits 0 —
exactly when some tick is at least 60 * timeout seconds after startup. -/
theorem c10_zero_activity_from_startup :
    ∀ (timeout start : Int) (ticks : List TickIn),
      (∀ i ∈ ticks, i.players = some 0 ∧ i.metricOk = true
        ∧ i.tagOk = true ∧ i.stopOk = true) →
      ((mainRun true true timeout start ticks).1 = some 0
        ↔ ∃ i ∈ ticks, 60 * timeout ≤ i.now - start) := by
  intro timeout start ticks hall
  have key : ∀ (l : List TickIn) (st : Int),
      (∀ i ∈ l, i.players = some 0 ∧ i.metricOk = true
        ∧ i.tagOk = true ∧ i.stopOk = true) →
      ((monitorRun timeout st l).suspended = true
        ↔ ∃ i ∈ l, 60 * timeout ≤ i.now - st) := by
    intro l
    induction l with
    | nil => intro st _; simp [monitorRun]
    | cons i rest ih =>
      intro st h
      obtain ⟨hp, hm, ht, hs⟩ := h i (List.mem_cons_self i rest)
      have hrest := fun j hj => h j (List.mem_cons_of_mem i hj)
      by_cases hc : 60 * timeout ≤ i.now - st
      · have htick : monitorTick timeout st i
            = ⟨st, [MEvent.tagWrite i.now, MEvent.stopIssue], true, true⟩ := by
          simp [monitorTick, hp, hm, ht, hs, hc]
        constructor
        · intro _; exact ⟨i, List.mem_cons_self i rest, hc⟩
        · intro _; simp [monitorRun, htick]
      · have htick : monitorTick timeout st i = ⟨st, [], false, false⟩ := by
          simp [monitorTick, hp, hm, hc]
        have hrun : monitorRun timeout st (i :: rest) = monitorRun timeout st rest := by
          simp [monitorRun, htick]
        rw [hrun, ih st hrest]
        constructor
        · rintro ⟨j, hj, hcj⟩
          exact ⟨j, List.mem_cons_of_mem i hj, hcj⟩
        · rintro ⟨j, hj, hcj⟩
          rcases List.mem_cons.mp hj with hji | hji
          · subst hji; exact absurd hcj hc
          · exact ⟨j, hji, hcj⟩
  rw [← key ticks start hall]
  by_cases h : (monitorRun timeout start ticks).suspended = true
  · simp [mainRun, h]
  · have h' : (monitorRun timeout start ticks).suspended = false := by
      revert h; cases (monitorRun timeout start ticks).suspended <;> simp
    simp [mainRun, h']

/-- Witness for C10: all-zero run whose second tick is 600 s after startup
with threshold 10 minutes exits 0. -/
theorem c10_zero_activity_from_startup_witness :
    (mainRun true true 10 0
      [⟨some 0, true, 60, true, true⟩, ⟨some 0, true, 600, true, true⟩]).1 = some 0 :=
  (c10_zero_activity_from_startup 10 0
      [⟨some 0, true, 60, true, true⟩, ⟨some 0, true, 600, true, true⟩]
      (by decide)).mpr
    ⟨⟨some 0, true, 600, true, true⟩, by decide, by decide⟩

/-! ## Sweeper: src/aws/lambda/stopped_instance_check.py -/

/-- Outcome classes of datetime.fromisoformat on a StopTime tag value:
a string that does not parse (ValueError), one that parses without a UTC
offset (an offset-naive datetime), and one that parses with an offset
(offset-aware; seconds are normalised to the epoch in UTC). -/
inductive TagVal where
  | invalid
  | naive (sec : Int)
  | aware (sec : Int)
deriving DecidableEq

/-- An EC2 tag as the sweeper sees it. -/
structure Tag where
  key : String
  value : TagVal
deriving DecidableEq

/-- A Python datetime: seconds since epoch plus whether it carries a UTC
offset.  Subtracting a naive from an aware datetime raises TypeError. -/
structure PyDatetime where
  sec : Int
  isAware : Bool
deriving DecidableEq

/-- Python exceptions relevant to the sweeper. -/
inductive PyError where
  | typeError
  | clientError
  | valueError
deriving DecidableEq

/-- Python datetime subtraction: defined only between two naive or two
aware datetimes, otherwise TypeError.  The result is the timedelta's total
seconds. -/
def dtSub (a b : PyDatetime) : Except PyError Int :=
  if a.isAware = b.isAware then Except.ok (a.sec - b.sec)
  else Except.error PyError.typeError

/-- timedelta.days: floor division of the total seconds by 86400 (Python
floor division rounds toward negative infinity, which is Int.fdiv). -/
def timedeltaDays (totalSeconds : Int) : Int := Int.fdiv totalSeconds 86400

/-- An EC2 instance as the sweeper sees it, plus the outcome the provider
would give to a terminate_instances call on it (`terminateOk = false`
models the call raising, wrapped as InstanceTerminationError). -/
structure Ec2Inst where
  instanceId : String
  state : String
  tags : List Tag
  terminateOk : Bool
deriving DecidableEq

/-- get_stop_time_from_tags (lines 26-46): first StopTime tag wins; a
ValueError from fromisoformat is caught and yields None; no tag yields
None.  Note a parseable offset-naive value is returned as a naive
datetime, not rejected. -/
def get_stop_time_from_tags : List Tag → Option PyDatetime
  | [] => none
  | t :: rest =>
    if t.key = "StopTime" then
      match t.value with
      | TagVal.invalid => none
      | TagVal.naive s => some ⟨s, false⟩
      | TagVal.aware s => some ⟨s, true⟩
    else get_stop_time_from_tags rest

/-- should_terminate_instance (lines 48-63): None never terminates;
otherwise days_stopped = (now_utc - stop_time).days and the instance is
terminable when days_stopped >= terminate_after_days.  now_utc is aware,
so the subtraction raises TypeError on a naive stop_time. -/
def should_terminate_instance (now : Int) (stop_time : Option PyDatetime)
    (terminate_after_days : Int) : Except PyError Bool :=
  match stop_time with
  | none => Except.ok false
  | some st =>
    match dtSub ⟨now, true⟩ st with
    | Except.error e => Except.error e
    | Except.ok d => Except.ok (decide (terminate_after_days ≤ timedeltaDays d))

/-- Whether a tag list contains a given key. -/
def hasTagKey (tags : List Tag) (k : String) : Bool :=
  tags.any (fun t => t.key = k)

/-- get_stopped_instances (lines 84-110): describe_instances with the
API-level filters instance-state-name = stopped AND tag-key = StopTime,
applied here to the provider's world of instances. -/
def get_stopped_instances (world : List Ec2Inst) : List Ec2Inst :=
  world.filter (fun i => decide (i.state = "stopped") && hasTagKey i.tags "StopTime")

/-- The handler's termination_summary dict (lines 130-134). -/
structure Summary where
  terminated_instances : List String
  failed_terminations : List String
  checked_instances : Nat
deriving DecidableEq

/-- The per-instance loop of handler (lines 140-164).  An instance without
a valid StopTime is skipped; days_stopped is computed at line 151 (where an
aware-minus-naive TypeError escapes, since only ClientError and
InstanceTerminationError are caught); should_terminate_instance decides
termination; a terminate failure is caught per instance and recorded in
failed_terminations while success is recorded in terminated_instances. -/
def processInstances (now tdays : Int) : List Ec2Inst → Summary → Except PyError Summary
  | [], s => Except.ok s
  | inst :: rest, s =>
    match get_stop_time_from_tags inst.tags with
    | none => processInstances now tdays rest s
    | some st =>
      match dtSub ⟨now, true⟩ st with
      | Except.error e => Except.error e
      | Except.ok _d =>
        match should_terminate_instance now (some st) tdays with
        | Except.error e => Except.error e
        | Except.ok b =>
          if b then
            if inst.terminateOk then
              processInstances now tdays rest
                { s with terminated_instances := s.terminated_instances ++ [inst.instanceId] }
            else
              processInstances now tdays rest
                { s with failed_terminations := s.failed_terminations ++ [inst.instanceId] }
          else processInstances now tdays rest s

/-- handler (lines 112-171): a missing or non-integer TERMINATE_AFTER_DAYS
raises ValueError; a describe_instances ClientError is logged and
re-raised; otherwise checked_instances is set to the listing's length and
the per-instance loop runs. -/
def handler (terminate_after_days : Option Int) (describeOk : Bool)
    (world : List Ec2Inst) (now : Int) : Except PyError Summary :=
  match terminate_after_days with
  | none => Except.error PyError.valueError
  | some tdays =>
    if describeOk then
      let instances := get_stopped_instances world
      processInstances now tdays instances ⟨[], [], instances.length⟩
    else Except.error PyError.clientError

/-- The spec example sweep: threshold 2 days, instance A stopped 1 day 20 h
before `now`, instance B stopped 2 days 3 h before `now`. -/
def c2World : List Ec2Inst :=
  [⟨"i-A", "stopped", [⟨"StopTime", TagVal.aware (1000000 - (86400 + 72000))⟩], true⟩,
   ⟨"i-B", "stopped", [⟨"StopTime", TagVal.aware (1000000 - (2 * 86400 + 10800))⟩], true⟩]

/-- C2: for an aware stop time, should_terminate_instance returns exactly
the test floor((now - stop) / 86400 days) >= threshold; at threshold 2 days
an instance stopped 1 day 23 h 59 m is not terminable while one stopped
exactly 2 days is; and on the spec example sweep the summary is
checked = 2, terminated = [i-B], failed = []. -/
theorem c2_retention_boundary :
    (∀ (now s tdays : Int),
        should_terminate_instance now (some ⟨s, true⟩) tdays
          = Except.ok (decide (tdays ≤ Int.fdiv (now - s) 86400)))
    ∧ should_terminate_instance 0 (some ⟨-(86400 * 2 - 60), true⟩) 2 = Except.ok false
    ∧ should_terminate_instance 0 (some ⟨-(86400 * 2), true⟩) 2 = Except.ok true
    ∧ handler (some 2) true c2World 1000000 = Except.ok ⟨["i-B"], [], 2⟩ := by
  refine ⟨?_, by rfl, by rfl, by rfl⟩
  intro now s tdays
  simp [should_terminate_instance, dtSub, timedeltaDays]

/-- Any id in the terminated list of a successful per-instance loop was
already there or is the id of some instance of the processed list. -/
theorem processInstances_terminated_mem (now tdays : Int) :
    ∀ (l : List Ec2Inst) (s s2 : Summary),
      processInstances now tdays l s = Except.ok s2 →
      ∀ x ∈ s2.terminated_instances,
        x ∈ s.terminated_instances ∨ ∃ i ∈ l, i.instanceId = x := by
  intro l
  induction l with
  | nil =>
    intro s s2 h x hx
    simp [processInstances] at h
    subst h
    exact Or.inl hx
  | cons inst rest ih =>
    intro s s2 h x hx
    cases hg : get_stop_time_from_tags inst.tags with
    | none =>
      rw [show processInstances now tdays (inst :: rest) s
            = processInstances now tdays rest s by
          simp [processInstances, hg]] at h
      rcases ih s s2 h x hx with hl | ⟨i, hi, hix⟩
      · exact Or.inl hl
      · exact Or.inr ⟨i, List.mem_cons_of_mem inst hi, hix⟩
    | some st =>
      cases haw : st.isAware with
      | false =>
        rw [show processInstances now tdays (inst :: rest) s
              = Except.error PyError.typeError by
            simp [processInstances, hg, dtSub, haw]] at h
        exact absurd h (by simp)
      | true =>
        have hstep : processInstances now tdays (inst :: rest) s
            = (if tdays ≤ timedeltaDays (now - st.sec) then
                 (if inst.terminateOk = true then
                    processInstances now tdays rest
                      { s with terminated_instances :=
                          s.terminated_instances ++ [inst.instanceId] }
                  else
                    processInstances now tdays rest
                      { s with failed_terminations :=
                          s.failed_terminations ++ [inst.instanceId] })
               else processInstances now tdays rest s) := by
          simp [processInstances, hg, dtSub, haw, should_terminate_instance]
        rw [hstep] at h
        by_cases hb : tdays ≤ timedeltaDays (now - st.sec)
        · rw [if_pos hb] at h
          by_cases hterm : inst.terminateOk = true
          · rw [if_pos hterm] at h
            rcases ih _ s2 h x hx with hl | ⟨i, hi, hix⟩
            · rcases List.mem_append.mp hl with hl2 | hl2
              · exact Or.inl hl2
              · refine Or.inr ⟨inst, List.mem_cons_self inst rest, ?_⟩
                simpa using (List.mem_singleton.mp hl2).symm
            · exact Or.inr ⟨i, List.mem_cons_of_mem inst hi, hix⟩
          · rw [if_neg hterm] at h
            rcases ih _ s2 h x hx with hl | ⟨i, hi, hix⟩
            · exact Or.inl hl
            · exact Or.inr ⟨i, List.mem_cons_of_mem inst hi, hix⟩
        · rw [if_neg hb] at h
          rcases ih s s2 h x hx with hl | ⟨i, hi, hix⟩
          · exact Or.inl hl
          · exact Or.inr ⟨i, List.mem_cons_of_mem inst hi, hix⟩

/-- C5: every instance of the describe_instances listing is in state
stopped and carries a StopTime tag key (the exclusion happens in the
API-level filter), and every id the handler reports as terminated belongs
to an instance of the provider world that is stopped and carries the
StopTime tag key — the sweeper never terminates an untagged resource. -/
theorem c5_no_untagged_termination :
    (∀ (world : List Ec2Inst) (i : Ec2Inst), i ∈ get_stopped_instances world →
        i.state = "stopped" ∧ hasTagKey i.tags "StopTime" = true)
    ∧ (∀ (tdays now : Int) (world : List Ec2Inst) (s : Summary),
        handler (some tdays) true world now = Except.ok s →
        ∀ x ∈ s.terminated_instances, ∃ i ∈ world,
          i.instanceId = x ∧ i.state = "stopped" ∧ hasTagKey i.tags "StopTime" = true) := by
  have hfilter : ∀ (world : List Ec2Inst) (i : Ec2Inst),
      i ∈ get_stopped_instances world →
      i ∈ world ∧ i.state = "stopped" ∧ hasTagKey i.tags "StopTime" = true := by
    intro world i hi
    have := List.mem_filter.mp hi
    refine ⟨this.1, ?_, ?_⟩
    · have := this.2
      simp only [Bool.and_eq_true, decide_eq_true_eq] at this
      exact this.1
    · have := this.2
      simp only [Bool.and_eq_true, decide_eq_true_eq] at this
      exact this.2
  constructor
  · intro world i hi
    exact ⟨(hfilter world i hi).2.1, (hfilter world i hi).2.2⟩
  · intro tdays now world s h x hx
    have h2 : processInstances now tdays (get_stopped_instances world)
        ⟨[], [], (get_stopped_instances world).length⟩ = Except.ok s := by
      simpa [handler] using h
    rcases processInstances_terminated_mem now tdays _ _ s h2 x hx with hl | ⟨i, hi, hix⟩
    · exact absurd hl (List.not_mem_nil x)
    · exact ⟨i, (hfilter world i hi).1, hix,
        (hfilter world i hi).2.1, (hfilter world i hi).2.2⟩

/-- World for the C5 witness: a tagged stopped instance, an untagged
stopped instance and a tagged running instance. -/
def c5World : List Ec2Inst :=
  [⟨"i-1", "stopped", [⟨"StopTime", TagVal.aware 0⟩], true⟩,
   ⟨"i-2", "stopped", [], true⟩,
   ⟨"i-3", "running", [⟨"StopTime", TagVal.aware 0⟩], true⟩]

/-- Witness for C5: its listing keeps only the tagged stopped instance and
the only terminated id comes from a tagged stopped instance. -/
theorem c5_no_untagged_termination_witness :
    ((⟨"i-1", "stopped", [⟨"StopTime", TagVal.aware 0⟩], true⟩ : Ec2Inst).state = "stopped"
      ∧ hasTagKey [(⟨"StopTime", TagVal.aware 0⟩ : Tag)] "StopTime" = true)
    ∧ ∃ i ∈ c5World, i.instanceId = "i-1" ∧ i.state = "stopped"
        ∧ hasTagKey i.tags "StopTime" = true :=
  ⟨c5_no_untagged_termination.1 c5World
      ⟨"i-1", "stopped", [⟨"StopTime", TagVal.aware 0⟩], true⟩ (by decide),
   c5_no_untagged_termination.2 0 86400 c5World ⟨["i-1"], [], 1⟩ (by rfl)
      "i-1" (by decide)⟩

/-- Termination eligibility of a listed instance, as the handler computes
it: the parsed StopTime exists and floor((now - stop) / 1 day) is at least
the threshold. -/
def eligibleInst (now tdays : Int) (i : Ec2Inst) : Bool :=
  match get_stop_time_from_tags i.tags with
  | some st => decide (tdays ≤ timedeltaDays (now - st.sec))
  | none => false

/-- Full characterisation of the per-instance loop on a list whose parsed
StopTime values are all offset-aware: it never raises, the terminated list
collects exactly the eligible instances whose terminate call succeeds, the
failed list exactly the eligible ones whose terminate call fails, and the
checked count is untouched. -/
theorem processInstances_spec (now tdays : Int) :
    ∀ (l : List Ec2Inst) (s : Summary),
      (∀ i ∈ l, (get_stop_time_from_tags i.tags).all PyDatetime.isAware = true) →
      processInstances now tdays l s = Except.ok
        ⟨s.terminated_instances
            ++ (l.filter (fun i => eligibleInst now tdays i && i.terminateOk)).map
                Ec2Inst.instanceId,
         s.failed_terminations
            ++ (l.filter (fun i => eligibleInst now tdays i && !i.terminateOk)).map
                Ec2Inst.instanceId,
         s.checked_instances⟩ := by
  intro l
  induction l with
  | nil => intro s _; simp [processInstances]
  | cons inst rest ih =>
    intro s hall
    have hrest := fun j hj => hall j (List.mem_cons_of_mem inst hj)
    cases hg : get_stop_time_from_tags inst.tags with
    | none =>
      have hel : eligibleInst now tdays inst = false := by
        simp [eligibleInst, hg]
      rw [show processInstances now tdays (inst :: rest) s
            = processInstances now tdays rest s by
          simp [processInstances, hg]]
      rw [ih s hrest]
      simp [List.filter_cons, hel]
    | some st =>
      have haw : st.isAware = true := by
        have := hall inst (List.mem_cons_self inst rest)
        rw [hg] at this
        simpa [Option.all] using this
      have hstep : processInstances now tdays (inst :: rest) s
          = (if tdays ≤ timedeltaDays (now - st.sec) then
               (if inst.terminateOk = true then
                  processInstances now tdays rest
                    { s with terminated_instances :=
                        s.terminated_instances ++ [inst.instanceId] }
                else
                  processInstances now tdays rest
                    { s with failed_terminations :=
                        s.failed_terminations ++ [inst.instanceId] })
             else processInstances now tdays rest s) := by
        simp [processInstances, hg, dtSub, haw, should_terminate_instance]
      rw [hstep]
      by_cases hb : tdays ≤ timedeltaDays (now - st.sec)
      · have hel : eligibleInst now tdays inst = true := by
          simp only [eligibleInst, hg, decide_eq_true_eq]
          exact hb
        rw [if_pos hb]
        by_cases hterm : inst.terminateOk = true
        · rw [if_pos hterm, ih _ hrest]
          simp [List.filter_cons, hel, hterm, List.append_assoc]
        · have hterm2 : inst.terminateOk = false := by
            revert hterm; cases inst.terminateOk <;> simp
          rw [if_neg hterm, ih _ hrest]
          simp [List.filter_cons, hel, hterm2, List.append_assoc]
      · have hel : eligibleInst now tdays inst = false := by
          simp only [eligibleInst, hg, decide_eq_false_iff_not]
          exact hb
        rw [if_neg hb, ih s hrest]
        simp [List.filter_cons, hel]

/-- World for the C6 counterexample: one stopped instance whose StopTime
value parses to an offset-naive datetime. -/
def c6World : List Ec2Inst :=
  [⟨"i-naive", "stopped", [⟨"StopTime", TagVal.naive 0⟩], true⟩]

/-- Counterexample to C6: a StopTime value that parses but carries no UTC
offset makes line 151 subtract a naive datetime from an aware one; the
TypeError is caught nowhere in the handler (only ClientError and
InstanceTerminationError are) and escapes the sweeper boundary instead of
the handler returning its summary. -/
theorem c6_naive_timestamp_escapes :
    handler (some 0) true c6World 86400 = Except.error PyError.typeError := by
  rfl

/-- C6 (amended): an unparseable StopTime value yields None, and the
handler skips that instance entirely — the rest of the sweep is unchanged
and nothing about it enters the summary; and whenever every parsed
StopTime of the listing is offset-aware, the handler absorbs all
per-resource failures and returns its summary.  A parseable offset-naive
StopTime, however, raises TypeError past the boundary. -/
theorem c6_unparseable_skipped_and_boundary :
    (∀ (now tdays : Int) (inst : Ec2Inst) (rest : List Ec2Inst) (s : Summary),
        get_stop_time_from_tags inst.tags = none →
        processInstances now tdays (inst :: rest) s = processInstances now tdays rest s)
    ∧ (∀ (tdays now : Int) (world : List Ec2Inst),
        (∀ i ∈ get_stopped_instances world,
          (get_stop_time_from_tags i.tags).all PyDatetime.isAware = true) →
        ∃ s, handler (some tdays) true world now = Except.ok s) := by
  constructor
  · intro now tdays inst rest s hg
    simp [processInstances, hg]
  · intro tdays now world hall
    refine ⟨⟨((get_stopped_instances world).filter
          (fun i => eligibleInst now tdays i && i.terminateOk)).map Ec2Inst.instanceId,
        ((get_stopped_instances world).filter
          (fun i => eligibleInst now tdays i && !i.terminateOk)).map Ec2Inst.instanceId,
        (get_stopped_instances world).length⟩, ?_⟩
    simp only [handler, if_pos rfl]
    exact processInstances_spec now tdays (get_stopped_instances world) _ hall

/-- Witness for C6 (amended): an invalid tag value is skipped, and a
listing with an invalid and an aware StopTime still yields a summary. -/
theorem c6_unparseable_skipped_and_boundary_witness :
    (processInstances 86400 0
        ((⟨"i-bad", "stopped", [⟨"StopTime", TagVal.invalid⟩], true⟩ : Ec2Inst)
          :: [⟨"i-ok", "stopped", [⟨"StopTime", TagVal.aware 0⟩], true⟩])
        ⟨[], [], 2⟩
      = processInstances 86400 0
          [⟨"i-ok", "stopped", [⟨"StopTime", TagVal.aware 0⟩], true⟩] ⟨[], [], 2⟩)
    ∧ ∃ s, handler (some 0) true
        [⟨"i-bad", "stopped", [⟨"StopTime", TagVal.invalid⟩], true⟩,
         ⟨"i-ok", "stopped", [⟨"StopTime", TagVal.aware 0⟩], true⟩] 86400
        = Except.ok s :=
  ⟨c6_unparseable_skipped_and_boundary.1 86400 0
      ⟨"i-bad", "stopped", [⟨"StopTime", TagVal.invalid⟩], true⟩
      [⟨"i-ok", "stopped", [⟨"StopTime", TagVal.aware 0⟩], true⟩]
      ⟨[], [], 2⟩ rfl,
   c6_unparseable_skipped_and_boundary.2 0 86400
      [⟨"i-bad", "stopped", [⟨"StopTime", TagVal.invalid⟩], true⟩,
       ⟨"i-ok", "stopped", [⟨"StopTime", TagVal.aware 0⟩], true⟩]
      (by decide)⟩

/-- World for C7: two eligible stopped instances; termination of the first
fails, termination of the second succeeds. -/
def c7World : List Ec2Inst :=
  [⟨"i-1", "stopped", [⟨"StopTime", TagVal.aware 0⟩], false⟩,
   ⟨"i-2", "stopped", [⟨"StopTime", TagVal.aware 0⟩], true⟩]

/-- C7: on any listing whose parsed StopTime values are offset-aware, the
handler returns a summary whose checked count is the listing length, whose
terminated list is exactly the eligible instances with a successful
terminate call and whose failed list is exactly the eligible instances
with a failing terminate call — so one instance's terminate failure never
stops later terminations; in particular with a failing first instance and
a succeeding second one the summary is terminated = [i-2],
failed = [i-1], checked = 2. -/
theorem c7_terminate_failure_isolated :
    (∀ (tdays now : Int) (world : List Ec2Inst),
        (∀ i ∈ get_stopped_instances world,
          (get_stop_time_from_tags i.tags).all PyDatetime.isAware = true) →
        handler (some tdays) true world now = Except.ok
          ⟨((get_stopped_instances world).filter
                (fun i => eligibleInst now tdays i && i.terminateOk)).map
              Ec2Inst.instanceId,
           ((get_stopped_instances world).filter
                (fun i => eligibleInst now tdays i && !i.terminateOk)).map
              Ec2Inst.instanceId,
           (get_stopped_instances world).length⟩)
    ∧ handler (some 0) true c7World 86400 = Except.ok ⟨["i-2"], ["i-1"], 2⟩ := by
  constructor
  · intro tdays now world hall
    simp only [handler, if_pos rfl]
    exact processInstances_spec now tdays (get_stopped_instances world) _ hall
  · rfl

/-- Witness for C7 applied to the concrete two-instance world. -/
theorem c7_terminate_failure_isolated_witness :
    handler (some 0) true c7World 86400 = Except.ok
      ⟨((get_stopped_instances c7World).filter
            (fun i => eligibleInst 86400 0 i && i.terminateOk)).map Ec2Inst.instanceId,
       ((get_stopped_instances c7World).filter
            (fun i => eligibleInst 86400 0 i && !i.terminateOk)).map Ec2Inst.instanceId,
       (get_stopped_instances c7World).length⟩ :=
  c7_terminate_failure_isolated.1 0 86400 c7World (by decide)

end MinecraftSetup
